import Mathlib

/-!
# ASTRA-CARE client: verification of the view/data-synchronization layer

Shallow embedding of the two near-duplicate dashboard implementations
(`src/unnamed/part_000` and `src/frontend/src/App.js`) of the ASTRA-CARE
client, restricted to the parts the specification talks about: the API
gateway and session store, the polling synchronizer, the view router,
the mock biometric pipeline and the optimistic chat pipeline.

JavaScript numbers are modelled as rationals, `null`/`undefined` as
`Option.none`, thrown exceptions as `Except.error`, and the DOM /
network side effects (localStorage writes, `window.location.reload`,
`console.error`, camera tracks) as explicit fields of result records.
Execution is modelled sequentially (the UI is single-threaded and the
"sending" guard serializes user-initiated sends), except where a claim
is explicitly about an interleaving, in which case the response handler
is exposed as a separate function of the state it observes.
-/

namespace Api

/-- Session token state of the unnamed variant's `api` object:
`token` is the in-memory copy (`api.token`), `durable` is the copy in
durable client storage (`localStorage` key `astra_token`). -/
structure SessionState where
  token : Option String
  durable : Option String
deriving DecidableEq, Repr

/-- `api.setToken(token)` (src/unnamed/part_000 lines 29-36): stores the
token in memory and mirrors it to durable storage; `setToken(null)`
clears both. -/
def setToken (_s : SessionState) (t : Option String) : SessionState :=
  match t with
  | some tok => { token := some tok, durable := some tok }
  | none => { token := none, durable := none }

/-- Observable side effects of one `api.fetch` call, in program order. -/
inductive Effect where
  | clearToken
  | reload
  | throwError (status : Nat)
deriving DecidableEq, Repr

/-- The base headers merged into every request. -/
def baseHeaders : List (String × String) :=
  [("Content-Type", "application/json")]

/-- Headers sent by `api.fetch`: the JSON content type plus, when a
token is present, the bearer Authorization header
(src/unnamed/part_000 lines 39-40). -/
def requestHeaders (s : SessionState) : List (String × String) :=
  baseHeaders ++
    (match s.token with
     | some t => [("Authorization", "Bearer " ++ t)]
     | none => [])

/-- `response.ok`: status in the 2xx range. -/
def responseOk (status : Nat) : Bool :=
  decide (200 ≤ status) && decide (status < 300)

/-- Result of one gateway call: the headers that were attached, the
session state after the call, whether a full reload was forced, the
outcome (`Except.error status` models the thrown `API Error`), and the
ordered trace of side effects. -/
structure FetchResult where
  headers : List (String × String)
  state : SessionState
  reloaded : Bool
  outcome : Except Nat Unit
  trace : List Effect
deriving Repr

/-- `api.fetch(endpoint, options)` of the unnamed variant
(src/unnamed/part_000 lines 38-49), as a function of the session state
and the HTTP status of the response: builds the headers, then on a 401
clears the token (memory and durable) and forces a reload, then throws
for any non-2xx status, and otherwise returns the parsed body. -/
def apiFetch (s : SessionState) (status : Nat) : FetchResult :=
  let headers := requestHeaders s
  let s1 := if status = 401 then setToken s none else s
  let reloaded := status = 401
  let trace1 : List Effect :=
    if status = 401 then [Effect.clearToken, Effect.reload] else []
  if responseOk status then
    { headers := headers, state := s1, reloaded := reloaded,
      outcome := Except.ok (), trace := trace1 }
  else
    { headers := headers, state := s1, reloaded := reloaded,
      outcome := Except.error status,
      trace := trace1 ++ [Effect.throwError status] }

/-- `api.fetch` of the App.js variant (src/frontend/src/App.js lines
18-28): this variant has no session store at all — no token is ever
present, no Authorization header is ever built, and a 401 is treated
like any other non-2xx status. The result is the headers sent and the
outcome. -/
def apiFetchV2 (status : Nat) : List (String × String) × Except Nat Unit :=
  (baseHeaders,
    if responseOk status then Except.ok () else Except.error status)

end Api

/-- C2: every gateway request attaches `Authorization: Bearer <token>`
when a token is present; a 401 response clears the session token
(in-memory and durable) and forces a full reload, and these side
effects happen before the non-2xx status is thrown (the trace on a 401
is `[clearToken, reload, throwError 401]`); any non-2xx status is
turned into a thrown error carrying that status. -/
theorem api_fetch_auth_and_401 (s : Api.SessionState) (status : Nat) :
    (∀ t, s.token = some t →
      ("Authorization", "Bearer " ++ t) ∈ (Api.apiFetch s status).headers) ∧
    (status = 401 →
      (Api.apiFetch s status).state.token = none ∧
      (Api.apiFetch s status).state.durable = none ∧
      (Api.apiFetch s status).reloaded = true ∧
      (Api.apiFetch s status).trace =
        [Api.Effect.clearToken, Api.Effect.reload, Api.Effect.throwError 401]) ∧
    (Api.responseOk status = false →
      (Api.apiFetch s status).outcome = Except.error status) ∧
    (Api.responseOk status = false →
      (Api.apiFetchV2 status).2 = Except.error status) := by
  refine ⟨?_, ?_, ?_, ?_⟩
  · intro t ht
    simp only [Api.apiFetch, Api.requestHeaders, Api.baseHeaders, ht]
    by_cases h : Api.responseOk status <;> simp [h]
  · intro h401
    subst h401
    have hok : Api.responseOk 401 = false := by decide
    simp [Api.apiFetch, hok, Api.setToken]
  · intro hok
    simp [Api.apiFetch, hok]
  · intro hok
    simp [Api.apiFetchV2, hok]

/-- Witness for C2 at a concrete session and status 401. -/
theorem api_fetch_auth_and_401_witness :
    ("Authorization", "Bearer tok0") ∈
      (Api.apiFetch ⟨some "tok0", some "tok0"⟩ 401).headers ∧
    (Api.apiFetch ⟨some "tok0", some "tok0"⟩ 401).state.token = none ∧
    (Api.apiFetch ⟨some "tok0", some "tok0"⟩ 401).trace =
      [Api.Effect.clearToken, Api.Effect.reload, Api.Effect.throwError 401] ∧
    (Api.apiFetchV2 401).2 = Except.error 401 := by
  have h := api_fetch_auth_and_401 ⟨some "tok0", some "tok0"⟩ 401
  exact ⟨h.1 "tok0" rfl, (h.2.1 rfl).1, (h.2.1 rfl).2.2.2,
    h.2.2.2 (by decide)⟩

namespace AppMain

/-- The user profile stored on login (fields used by the client). -/
structure User where
  email : String
  astronaut_id : String
  full_name : String
  role : String
deriving DecidableEq, Repr

/-- Body of a successful `POST /api/auth/login` response. -/
structure LoginResult where
  access_token : String
  user : User
deriving DecidableEq, Repr

/-- Top-level state of the unnamed variant's `App` component: the `api`
session state plus the `user` React state. -/
structure AppState where
  api : Api.SessionState
  user : Option User
deriving DecidableEq, Repr

/-- A successful `login` (src/unnamed/part_000 lines 103-108): stores
the returned access token via `api.setToken` and the returned user. -/
def login (st : AppState) (result : LoginResult) : AppState :=
  { api := Api.setToken st.api (some result.access_token),
    user := some result.user }

/-- `logout` (src/unnamed/part_000 lines 117-120): `api.setToken(null)`
then `setUser(null)`. -/
def logout (st : AppState) : AppState :=
  { api := Api.setToken st.api none, user := none }

/-- The two top-level views: `user ? <Dashboard/> : <LoginPage/>`. -/
inductive RootView where
  | loginPage
  | dashboard
deriving DecidableEq, Repr

/-- The top-level render decision (src/unnamed/part_000 line 139). -/
def render (st : AppState) : RootView :=
  match st.user with
  | some _ => RootView.dashboard
  | none => RootView.loginPage

end AppMain

/-- C4: after any successful login followed by logout, the session
state is exactly `{token absent, user absent}`, the durable
client-storage key holding the token is absent, and the login view
(not the dashboard) is rendered. -/
theorem login_logout_roundtrip (st : AppMain.AppState)
    (result : AppMain.LoginResult) :
    (AppMain.logout (AppMain.login st result)).api.token = none ∧
    (AppMain.logout (AppMain.login st result)).api.durable = none ∧
    (AppMain.logout (AppMain.login st result)).user = none ∧
    AppMain.render (AppMain.logout (AppMain.login st result)) =
      AppMain.RootView.loginPage := by
  refine ⟨rfl, rfl, rfl, rfl⟩

/-- JavaScript `String.prototype.trim()`: strip leading and trailing
whitespace. Defined over the character list so that it is
kernel-reducible on literals. -/
def jsTrim (s : String) : String :=
  String.mk
    (((s.data.dropWhile Char.isWhitespace).reverse.dropWhile
        Char.isWhitespace).reverse)

namespace AstraSupport

/-- One chat exchange of the unnamed variant's `AstraSupport` component
(src/unnamed/part_000 line 1170): `id` is `Date.now()`,
`assistant_response` is `null` while the exchange is pending. -/
structure ChatMsg where
  id : Nat
  user_message : String
  assistant_response : Option String
  timestamp : Nat
deriving DecidableEq, Repr

/-- Local state of the `AstraSupport` component. -/
structure ChatState where
  messages : List ChatMsg
  input : String
  sending : Bool
deriving DecidableEq, Repr

/-- The success reconciliation of `sendMessage`
(src/unnamed/part_000 line 1174): map over the current message list and
write the backend reply into every message whose `assistant_response`
is `null`. -/
def reconcile (reply : String) (prev : List ChatMsg) : List ChatMsg :=
  prev.map fun m =>
    if m.assistant_response = none then
      { m with assistant_response := some reply }
    else m

/-- The failure rollback of `sendMessage`
(src/unnamed/part_000 line 1176): `prev.slice(0, -1)`, i.e. drop the
last element of the current message list, whatever it is. -/
def rollback (prev : List ChatMsg) : List ChatMsg :=
  prev.dropLast

/-- The response handler of `sendMessage`, applied to the message list
current when the response lands (`prev` in the functional state
updates): on success `reconcile`, on failure `rollback`. -/
def onResponse (prev : List ChatMsg) (outcome : Option String) :
    List ChatMsg :=
  match outcome with
  | some reply => reconcile reply prev
  | none => rollback prev

/-- `AstraSupport.sendMessage(text)` (src/unnamed/part_000 lines
1163-1180) run to completion without interleaving: no-op when the
trimmed text is empty or a send is in flight; otherwise clears the
input, appends a pending exchange (id and timestamp from the clock
`now`), and applies the response handler for `outcome` (`some reply`
on success, `none` on failure) to the appended list. -/
def sendMessage (st : ChatState) (text : String) (now : Nat)
    (outcome : Option String) : ChatState :=
  if jsTrim text = "" ∨ st.sending then st
  else
    let userMsg := jsTrim text
    let appended := st.messages ++ [⟨now, userMsg, none, now⟩]
    { messages := onResponse appended outcome,
      input := "",
      sending := false }

end AstraSupport

namespace SupportChat

/-- One chat exchange of the App.js variant's `SupportChat` component
(src/frontend/src/App.js lines 1185-1190): ids are strings
(`Date.now().toString()` locally, `result.message_id` from the
backend). -/
structure ChatMsg where
  id : String
  user_message : String
  assistant_response : Option String
  timestamp : Nat
deriving DecidableEq, Repr

/-- Local state of `SupportChat`: the history lives in the parent via
`chatHistory`/`setChatHistory` props; `message` is the input draft. -/
structure ChatState where
  chatHistory : List ChatMsg
  message : String
  sending : Bool
deriving DecidableEq, Repr

/-- `SupportChat.sendMessage` (src/frontend/src/App.js lines
1176-1213) run to completion without interleaving: no-op when the
trimmed draft is empty or a send is in flight; otherwise it appends a
pending exchange optimistically, and then on success replaces the
whole history with the pre-send closure value plus one filled
exchange (id `message_id` from the response), while on failure it
resets the history to the pre-send closure value. -/
def sendMessage (st : ChatState) (now : Nat)
    (outcome : Option (String × String)) : ChatState :=
  if jsTrim st.message = "" ∨ st.sending then st
  else
    let userMessage := jsTrim st.message
    match outcome with
    | some (mid, resp) =>
        { chatHistory :=
            st.chatHistory ++ [⟨mid, userMessage, some resp, now⟩],
          message := "",
          sending := false }
    | none =>
        { chatHistory := st.chatHistory, message := "", sending := false }

end SupportChat

/-- C1: in both variants, for a send of non-empty (after trimming)
text with no send in flight: on success the visible history length
increases by exactly one and the appended pending exchange's assistant
response is no longer absent (it carries the backend reply); on
failure the just-added pending exchange is removed and the history is
exactly its pre-send value. -/
theorem chat_optimistic_roundtrip (st : AstraSupport.ChatState)
    (st2 : SupportChat.ChatState) (text : String) (now n2 : Nat)
    (reply mid resp : String)
    (h1 : st.sending = false) (h2 : jsTrim text ≠ "")
    (h3 : st2.sending = false) (h4 : jsTrim st2.message ≠ "") :
    ((AstraSupport.sendMessage st text now (some reply)).messages.length =
        st.messages.length + 1 ∧
      (AstraSupport.sendMessage st text now (some reply)).messages.getLast? =
        some ⟨now, jsTrim text, some reply, now⟩) ∧
    (AstraSupport.sendMessage st text now none).messages = st.messages ∧
    ((SupportChat.sendMessage st2 n2 (some (mid, resp))).chatHistory.length =
        st2.chatHistory.length + 1 ∧
      (SupportChat.sendMessage st2 n2 (some (mid, resp))).chatHistory.getLast? =
        some ⟨mid, jsTrim st2.message, some resp, n2⟩) ∧
    (SupportChat.sendMessage st2 n2 none).chatHistory = st2.chatHistory := by
  refine ⟨⟨?_, ?_⟩, ?_, ⟨?_, ?_⟩, ?_⟩
  · simp [AstraSupport.sendMessage, AstraSupport.onResponse,
      AstraSupport.reconcile, h1, h2]
  · simp [AstraSupport.sendMessage, AstraSupport.onResponse,
      AstraSupport.reconcile, h1, h2]
  · simp [AstraSupport.sendMessage, AstraSupport.onResponse,
      AstraSupport.rollback, h1, h2, List.dropLast_concat]
  · simp [SupportChat.sendMessage, h3, h4]
  · simp [SupportChat.sendMessage, h3, h4]
  · simp [SupportChat.sendMessage, h3, h4]

/-- Witness for C1: a concrete send of "hi" from an idle chat. -/
theorem chat_optimistic_roundtrip_witness :
    (AstraSupport.sendMessage ⟨[], "", false⟩ "hi" 5 (some "ok")).messages.length =
        0 + 1 ∧
    (AstraSupport.sendMessage ⟨[], "", false⟩ "hi" 5 none).messages = [] ∧
    (SupportChat.sendMessage ⟨[], "hi", false⟩ 7 none).chatHistory = [] := by
  have h := chat_optimistic_roundtrip ⟨[], "", false⟩ ⟨[], "hi", false⟩
    "hi" 5 7 "ok" "m1" "r1" rfl (by decide) rfl (by decide)
  exact ⟨h.1.1, h.2.1, h.2.2.2⟩

/-- C10: in the unnamed variant's chat pipeline, reconciliation and
rollback correlate by field-absence and list position, not by the
generated identifier: on success the backend reply is written into
every message of the observed list whose assistant response is null
(all of them, if more than one exists), and on failure the last
element of the observed list is removed regardless of whether it is
the pending entry — as witnessed concretely by two pending entries
both receiving the same reply, and by a failure removing an
already-answered message. -/
theorem chat_reconcile_by_absence (reply : String)
    (prev : List AstraSupport.ChatMsg) :
    (∀ m ∈ prev, m.assistant_response = none →
      { m with assistant_response := some reply } ∈
        AstraSupport.onResponse prev (some reply)) ∧
    (AstraSupport.onResponse prev (some reply)).length = prev.length ∧
    AstraSupport.onResponse prev none = prev.dropLast ∧
    AstraSupport.onResponse
        [⟨1, "a", none, 1⟩, ⟨2, "b", none, 2⟩] (some reply) =
      [⟨1, "a", some reply, 1⟩, ⟨2, "b", some reply, 2⟩] ∧
    AstraSupport.onResponse
        [⟨1, "a", none, 1⟩, ⟨2, "b", some "done", 2⟩] none =
      [⟨1, "a", none, 1⟩] := by
  refine ⟨?_, ?_, rfl, ?_, rfl⟩
  · intro m hm habs
    simp only [AstraSupport.onResponse, AstraSupport.reconcile,
      List.mem_map]
    exact ⟨m, hm, by simp [habs]⟩
  · simp [AstraSupport.onResponse, AstraSupport.reconcile]
  · simp [AstraSupport.onResponse, AstraSupport.reconcile]

/-- Witness for C10: a concrete pending entry receives the reply. -/
theorem chat_reconcile_by_absence_witness :
    ({ id := 3, user_message := "c", assistant_response := some "r",
        timestamp := 3 } : AstraSupport.ChatMsg) ∈
      AstraSupport.onResponse [⟨3, "c", none, 3⟩] (some "r") := by
  have h := (chat_reconcile_by_absence "r" [⟨3, "c", none, 3⟩]).1
    ⟨3, "c", none, 3⟩ (by simp) rfl
  simpa using h

/-- A camera stream as a sequence of frames; the mock analysis never
reads it. -/
structure CameraStream where
  frames : List (List Nat)

namespace BiometricScan

/-- The synthesized result bundle of the unnamed variant's
`BiometricScan.performScan` (src/unnamed/part_000 lines 929-946);
`confidence_overall` models `confidence_scores.overall`. -/
structure ScanResults where
  estimated_hr : ℚ
  respiration_rate : ℚ
  hrv_trend : ℚ
  oxygen_saturation_trend : ℚ
  blood_pressure_trend : String
  mood_state : String
  mental_stress_index : ℚ
  fatigue_probability : ℚ
  alertness_level : ℚ
  facial_tension : ℚ
  pain_likelihood : ℚ
  blink_rate : ℚ
  eye_openness : ℚ
  skin_hydration_indicator : String
  dehydration_risk : ℚ
  confidence_overall : ℚ
deriving DecidableEq, Repr

/-- The fixed mood vocabulary of the unnamed variant
(src/unnamed/part_000 line 935). -/
def moodOptions : List String := ["calm", "neutral", "focused", "alert"]

/-- The `simulatedResults` object literal (src/unnamed/part_000 lines
929-946): each field is drawn from its own `Math.random()` call,
numbered in source order (`rand i` is the i-th draw, each in `[0,1)`).
`0.75 + Math.random() * 0.2` is `3/4 + rand 15 * (1/5)`. -/
def simulatedResults (rand : Nat → ℚ) : ScanResults :=
  { estimated_hr := 65 + rand 0 * 25
  , respiration_rate := 14 + rand 1 * 6
  , hrv_trend := 45 + rand 2 * 30
  , oxygen_saturation_trend := 95 + rand 3 * 4
  , blood_pressure_trend :=
      if rand 4 > 1/2 then "normal" else "slightly_elevated"
  , mood_state := moodOptions.getD (⌊rand 5 * 4⌋).toNat ""
  , mental_stress_index := 15 + rand 6 * 45
  , fatigue_probability := 15 + rand 7 * 40
  , alertness_level := 55 + rand 8 * 35
  , facial_tension := 10 + rand 9 * 30
  , pain_likelihood := rand 10 * 15
  , blink_rate := 15 + rand 11 * 10
  , eye_openness := 70 + rand 12 * 25
  , skin_hydration_indicator :=
      if rand 13 > 3/10 then "adequate" else "low"
  , dehydration_risk := rand 14 * 30
  , confidence_overall := 3/4 + rand 15 * (1/5) }

/-- Outcome of one run of `performScan` (src/unnamed/part_000 lines
925-958): the displayed `results` state, the `scanning` flag, the
payload forwarded to `api.storeFacialAnalysis` (astronaut id plus the
bundle), whether the store succeeded, whether the failure was logged
to the console, and whether `onScanComplete` was invoked. -/
structure ScanFlowResult where
  results : Option ScanResults
  scanning : Bool
  forwarded : Option (String × ScanResults)
  storeSucceeded : Bool
  loggedStoreError : Bool
  onScanCompleteCalled : Bool
deriving Repr

/-- `BiometricScan.performScan` run to completion: after the fixed
3.5 s delay it synthesizes `simulatedResults rand` without reading the
camera stream, displays it, then forwards it for persistence; a store
failure (`storeOk = false`) is only logged and skips the
`onScanComplete` callback. -/
def performScan (_stream : Option CameraStream) (astronautId : String)
    (rand : Nat → ℚ) (storeOk : Bool) : ScanFlowResult :=
  let bundle := simulatedResults rand
  { results := some bundle
  , scanning := false
  , forwarded := some (astronautId, bundle)
  , storeSucceeded := storeOk
  , loggedStoreError := !storeOk
  , onScanCompleteCalled := storeOk }

end BiometricScan

namespace FacialScan

/-- `vital_estimates` of the App.js variant
(src/frontend/src/App.js lines 824-830). -/
structure VitalEstimates where
  heart_rate : ℚ
  respiration_rate : ℚ
  hrv_trend : ℚ
  oxygen_saturation_trend : ℚ
  blood_pressure_trend : String
deriving DecidableEq, Repr

/-- `mental_indicators` (src/frontend/src/App.js lines 831-838). -/
structure MentalIndicators where
  mood_state : String
  mental_stress_index : ℚ
  fatigue_probability : ℚ
  alertness_level : ℚ
  facial_tension : ℚ
  pain_likelihood : ℚ
deriving DecidableEq, Repr

/-- `physical_indicators` (src/frontend/src/App.js lines 839-844). -/
structure PhysicalIndicators where
  blink_rate : ℚ
  eye_openness : ℚ
  skin_hydration : String
  dehydration_risk : ℚ
deriving DecidableEq, Repr

/-- `confidence_scores` (src/frontend/src/App.js lines 845-849). -/
structure ConfidenceScores where
  overall : ℚ
  vital : ℚ
  mental : ℚ
deriving DecidableEq, Repr

/-- The nested result bundle of `FacialScan.performScan`. -/
structure ScanResults where
  vital_estimates : VitalEstimates
  mental_indicators : MentalIndicators
  physical_indicators : PhysicalIndicators
  confidence_scores : ConfidenceScores
deriving DecidableEq, Repr

/-- The fixed mood vocabulary of the App.js variant
(src/frontend/src/App.js line 832). -/
def moodOptions : List String :=
  ["calm", "neutral", "focused", "slightly_stressed"]

/-- The `simulatedResults` object literal (src/frontend/src/App.js
lines 823-850), draws numbered in source order. -/
def simulatedResults (rand : Nat → ℚ) : ScanResults :=
  { vital_estimates :=
      { heart_rate := 65 + rand 0 * 20
      , respiration_rate := 14 + rand 1 * 6
      , hrv_trend := 45 + rand 2 * 30
      , oxygen_saturation_trend := 95 + rand 3 * 4
      , blood_pressure_trend :=
          if rand 4 > 1/2 then "normal" else "slightly_elevated" }
  , mental_indicators :=
      { mood_state := moodOptions.getD (⌊rand 5 * 4⌋).toNat ""
      , mental_stress_index := 20 + rand 6 * 40
      , fatigue_probability := 15 + rand 7 * 35
      , alertness_level := 60 + rand 8 * 30
      , facial_tension := 10 + rand 9 * 30
      , pain_likelihood := rand 10 * 15 }
  , physical_indicators :=
      { blink_rate := 15 + rand 11 * 10
      , eye_openness := 70 + rand 12 * 25
      , skin_hydration := if rand 13 > 3/10 then "adequate" else "low"
      , dehydration_risk := rand 14 * 30 }
  , confidence_scores :=
      { overall := 3/4 + rand 15 * (1/5)
      , vital := 3/5 + rand 16 * (3/10)
      , mental := 7/10 + rand 17 * (1/4) } }

/-- Outcome of one run of `FacialScan.performScan`
(src/frontend/src/App.js lines 816-880). -/
structure ScanFlowResult where
  results : Option ScanResults
  scanning : Bool
  forwarded : Option (String × ScanResults)
  storeSucceeded : Bool
  loggedStoreError : Bool
deriving Repr

/-- `FacialScan.performScan` run to completion: after the fixed 3 s
delay it synthesizes `simulatedResults rand` without reading the
camera stream, displays it, then forwards it (flattened, with the
astronaut id) to `api.storeFacialAnalysis`; a store failure is only
logged. -/
def performScan (_stream : Option CameraStream) (astronautId : String)
    (rand : Nat → ℚ) (storeOk : Bool) : ScanFlowResult :=
  let bundle := simulatedResults rand
  { results := some bundle
  , scanning := false
  , forwarded := some (astronautId, bundle)
  , storeSucceeded := storeOk
  , loggedStoreError := !storeOk }

end FacialScan

/-- `a ≤ a + r * m ≤ a + m` for a draw `r ∈ [0,1)` and a nonnegative
scale `m`. -/
lemma unit_draw_range (r a m : ℚ) (h0 : 0 ≤ r) (h1 : r < 1)
    (hm : 0 ≤ m) : a ≤ a + r * m ∧ a + r * m ≤ a + m := by
  constructor
  · nlinarith
  · nlinarith

/-- `Math.floor(r * 4)` is a valid index into a four-element mood
array when `r ∈ [0,1)`. -/
lemma mood_index_lt (r : ℚ) (h0 : 0 ≤ r) (h1 : r < 1) :
    (⌊r * 4⌋).toNat < 4 := by
  have hlt : ⌊r * 4⌋ < 4 := by
    have h4 : r * 4 < 4 := by nlinarith
    exact Int.floor_lt.mpr (by push_cast; linarith)
  have hnn : 0 ≤ ⌊r * 4⌋ := Int.floor_nonneg.mpr (by positivity)
  omega

/-- Indexing with a default inside the bounds yields a list member. -/
lemma getD_mem_of_lt {α : Type} (l : List α) (d : α) (k : Nat)
    (h : k < l.length) : l.getD k d ∈ l := by
  induction l generalizing k with
  | nil => simp at h
  | cons a t ih =>
    cases k with
    | zero => simp
    | succ n =>
      simp only [List.getD_cons_succ]
      exact List.mem_cons_of_mem a (ih n (by simpa using h))

/-- C3: in both variants, for every execution of the mock scan
(draws in `[0,1)`), every numeric field named by the spec lies within
its documented range — heart-rate estimate in `[65,90]`, stress index
in `[15,60]`, alertness in `[55,90]`, overall confidence in
`[0.75,0.95]` — the mood state is one of the fixed enumerated small
set, and no field is derived from camera frames (the scan output is
the same for any two camera streams). -/
theorem scan_results_in_range (rand : Nat → ℚ)
    (hr : ∀ i, 0 ≤ rand i ∧ rand i < 1) :
    (65 ≤ (BiometricScan.simulatedResults rand).estimated_hr ∧
      (BiometricScan.simulatedResults rand).estimated_hr ≤ 90) ∧
    (15 ≤ (BiometricScan.simulatedResults rand).mental_stress_index ∧
      (BiometricScan.simulatedResults rand).mental_stress_index ≤ 60) ∧
    (55 ≤ (BiometricScan.simulatedResults rand).alertness_level ∧
      (BiometricScan.simulatedResults rand).alertness_level ≤ 90) ∧
    (3/4 ≤ (BiometricScan.simulatedResults rand).confidence_overall ∧
      (BiometricScan.simulatedResults rand).confidence_overall ≤ 19/20) ∧
    (BiometricScan.simulatedResults rand).mood_state ∈
      BiometricScan.moodOptions ∧
    (65 ≤ (FacialScan.simulatedResults rand).vital_estimates.heart_rate ∧
      (FacialScan.simulatedResults rand).vital_estimates.heart_rate ≤ 90) ∧
    (15 ≤ (FacialScan.simulatedResults rand).mental_indicators.mental_stress_index ∧
      (FacialScan.simulatedResults rand).mental_indicators.mental_stress_index ≤ 60) ∧
    (55 ≤ (FacialScan.simulatedResults rand).mental_indicators.alertness_level ∧
      (FacialScan.simulatedResults rand).mental_indicators.alertness_level ≤ 90) ∧
    (3/4 ≤ (FacialScan.simulatedResults rand).confidence_scores.overall ∧
      (FacialScan.simulatedResults rand).confidence_scores.overall ≤ 19/20) ∧
    (FacialScan.simulatedResults rand).mental_indicators.mood_state ∈
      FacialScan.moodOptions ∧
    (∀ (s1 s2 : Option CameraStream) (aid : String) (ok : Bool),
      BiometricScan.performScan s1 aid rand ok =
        BiometricScan.performScan s2 aid rand ok ∧
      FacialScan.performScan s1 aid rand ok =
        FacialScan.performScan s2 aid rand ok) := by
  have hmood1 :
      (BiometricScan.simulatedResults rand).mood_state ∈
        BiometricScan.moodOptions := by
    have hk := mood_index_lt (rand 5) (hr 5).1 (hr 5).2
    simpa [BiometricScan.simulatedResults] using
      getD_mem_of_lt BiometricScan.moodOptions "" _
        (by simpa [BiometricScan.moodOptions] using hk)
  have hmood2 :
      (FacialScan.simulatedResults rand).mental_indicators.mood_state ∈
        FacialScan.moodOptions := by
    have hk := mood_index_lt (rand 5) (hr 5).1 (hr 5).2
    simpa [FacialScan.simulatedResults] using
      getD_mem_of_lt FacialScan.moodOptions "" _
        (by simpa [FacialScan.moodOptions] using hk)
  refine ⟨?_, ?_, ?_, ?_, hmood1, ?_, ?_, ?_, ?_, hmood2,
    fun s1 s2 aid ok => ⟨rfl, rfl⟩⟩
  · have h := unit_draw_range (rand 0) 65 25 (hr 0).1 (hr 0).2 (by norm_num)
    constructor
    · simpa [BiometricScan.simulatedResults] using h.1
    · have := h.2
      simp only [BiometricScan.simulatedResults]
      linarith
  · have h := unit_draw_range (rand 6) 15 45 (hr 6).1 (hr 6).2 (by norm_num)
    constructor
    · simpa [BiometricScan.simulatedResults] using h.1
    · have := h.2
      simp only [BiometricScan.simulatedResults]
      linarith
  · have h := unit_draw_range (rand 8) 55 35 (hr 8).1 (hr 8).2 (by norm_num)
    constructor
    · simpa [BiometricScan.simulatedResults] using h.1
    · have := h.2
      simp only [BiometricScan.simulatedResults]
      linarith
  · have h := unit_draw_range (rand 15) (3/4) (1/5) (hr 15).1 (hr 15).2
      (by norm_num)
    constructor
    · simpa [BiometricScan.simulatedResults] using h.1
    · have := h.2
      simp only [BiometricScan.simulatedResults]
      linarith
  · have h := unit_draw_range (rand 0) 65 20 (hr 0).1 (hr 0).2 (by norm_num)
    constructor
    · simpa [FacialScan.simulatedResults] using h.1
    · have := h.2
      simp only [FacialScan.simulatedResults]
      linarith
  · have h := unit_draw_range (rand 6) 20 40 (hr 6).1 (hr 6).2 (by norm_num)
    constructor
    · have := h.1
      simp only [FacialScan.simulatedResults]
      linarith
    · have := h.2
      simp only [FacialScan.simulatedResults]
      linarith
  · have h := unit_draw_range (rand 8) 60 30 (hr 8).1 (hr 8).2 (by norm_num)
    constructor
    · have := h.1
      simp only [FacialScan.simulatedResults]
      linarith
    · have := h.2
      simp only [FacialScan.simulatedResults]
      linarith
  · have h := unit_draw_range (rand 15) (3/4) (1/5) (hr 15).1 (hr 15).2
      (by norm_num)
    constructor
    · simpa [FacialScan.simulatedResults] using h.1
    · have := h.2
      simp only [FacialScan.simulatedResults]
      linarith

/-- Witness for C3 with every draw equal to one half. -/
theorem scan_results_in_range_witness :
    (65 ≤ (BiometricScan.simulatedResults fun _ => (1:ℚ)/2).estimated_hr ∧
      (BiometricScan.simulatedResults fun _ => (1:ℚ)/2).estimated_hr ≤ 90) ∧
    (BiometricScan.simulatedResults fun _ => (1:ℚ)/2).mood_state ∈
      BiometricScan.moodOptions := by
  have h := scan_results_in_range (fun _ => (1:ℚ)/2)
    (fun _ => ⟨by norm_num, by norm_num⟩)
  exact ⟨h.1, h.2.2.2.2.1⟩

/-- C8: after a scan completes, the result bundle is forwarded (with
the astronaut id) to the API gateway for persistence; a persistence
failure is only logged, and the displayed result state is unchanged
by the failure — the UI still shows the same results as in the
successful case. Shown for both variants. -/
theorem scan_store_failure_only_logged (stream : Option CameraStream)
    (aid : String) (rand : Nat → ℚ) (storeOk : Bool) :
    ((BiometricScan.performScan stream aid rand storeOk).forwarded =
      some (aid, BiometricScan.simulatedResults rand)) ∧
    ((BiometricScan.performScan stream aid rand storeOk).results =
      some (BiometricScan.simulatedResults rand)) ∧
    ((BiometricScan.performScan stream aid rand false).loggedStoreError =
      true) ∧
    ((BiometricScan.performScan stream aid rand false).results =
      (BiometricScan.performScan stream aid rand true).results) ∧
    ((FacialScan.performScan stream aid rand storeOk).forwarded =
      some (aid, FacialScan.simulatedResults rand)) ∧
    ((FacialScan.performScan stream aid rand storeOk).results =
      some (FacialScan.simulatedResults rand)) ∧
    ((FacialScan.performScan stream aid rand false).loggedStoreError =
      true) ∧
    ((FacialScan.performScan stream aid rand false).results =
      (FacialScan.performScan stream aid rand true).results) :=
  ⟨rfl, rfl, rfl, rfl, rfl, rfl, rfl, rfl⟩

namespace BiometricScan

/-- One media track of the acquired camera stream; `stopped` records
whether `track.stop()` has been called on it. -/
structure Track where
  id : Nat
  stopped : Bool
deriving DecidableEq, Repr

/-- Local state of the scan component (both variants are identical
here): the consent flag, the scanning flag, the displayed results, the
camera error, and the tracks of the stream attached to the video
element (`videoRef.current.srcObject`; the empty list models a video
element with no stream attached). -/
structure ComponentState where
  consent : Bool
  scanning : Bool
  results : Option ScanResults
  cameraError : Option String
  videoTracks : List Track
deriving DecidableEq, Repr

/-- `stopCamera` (src/unnamed/part_000 lines 916-918,
src/frontend/src/App.js lines 803-807): call `stop()` on every track
of the attached stream. -/
def stopCamera (st : ComponentState) : ComponentState :=
  { st with videoTracks := st.videoTracks.map fun t => { t with stopped := true } }

/-- The explicit Stop button handler (src/unnamed/part_000 line 1019,
src/frontend/src/App.js line 956):
`setConsent(false); stopCamera(); setResults(null)`. -/
def stopAction (st : ComponentState) : ComponentState :=
  { stopCamera { st with consent := false } with results := none }

/-- The cleanup function of the camera effect, run when the component
unmounts (src/unnamed/part_000 line 922, src/frontend/src/App.js line
813): `stopCamera()`. -/
def unmountCleanup (st : ComponentState) : ComponentState :=
  stopCamera st

/-- What the scan panel renders: the consent prompt, the camera error
message, or the live feed. -/
inductive PanelView where
  | awaitingConsent
  | cameraErrorPanel
  | liveFeed
deriving DecidableEq, Repr

/-- The render decision of the scan component: the consent gate first
(src/unnamed/part_000 line 962), then the camera-error branch. -/
def renderPanel (st : ComponentState) : PanelView :=
  if st.consent = false then PanelView.awaitingConsent
  else
    match st.cameraError with
    | some _ => PanelView.cameraErrorPanel
    | none => PanelView.liveFeed

end BiometricScan

/-- C7: whenever the explicit stop action is taken, every track of the
attached camera stream is stopped, the component returns to the
awaiting-consent state, and the displayed results are discarded; and
whenever the component unmounts, its cleanup stops every track of the
attached stream. -/
theorem camera_released_on_stop_and_unmount
    (st : BiometricScan.ComponentState) :
    (∀ t ∈ (BiometricScan.stopAction st).videoTracks, t.stopped = true) ∧
    (BiometricScan.stopAction st).consent = false ∧
    BiometricScan.renderPanel (BiometricScan.stopAction st) =
      BiometricScan.PanelView.awaitingConsent ∧
    (BiometricScan.stopAction st).results = none ∧
    (∀ t ∈ (BiometricScan.unmountCleanup st).videoTracks,
      t.stopped = true) := by
  refine ⟨?_, rfl, rfl, rfl, ?_⟩
  · intro t ht
    simp only [BiometricScan.stopAction, BiometricScan.stopCamera,
      List.mem_map] at ht
    obtain ⟨u, _, hu⟩ := ht
    simp [← hu]
  · intro t ht
    simp only [BiometricScan.unmountCleanup, BiometricScan.stopCamera,
      List.mem_map] at ht
    obtain ⟨u, _, hu⟩ := ht
    simp [← hu]

/-- Witness for C7: a live session with one running track is fully
released by the stop action. -/
theorem camera_released_on_stop_and_unmount_witness :
    (∀ t ∈ (BiometricScan.stopAction
        ⟨true, false, none, none, [⟨0, false⟩]⟩).videoTracks,
      t.stopped = true) ∧
    (BiometricScan.stopAction
        ⟨true, false, none, none, [⟨0, false⟩]⟩).consent = false := by
  have h := camera_released_on_stop_and_unmount
    ⟨true, false, none, none, [⟨0, false⟩]⟩
  exact ⟨h.1, h.2.1⟩

namespace CommandCenter

/-- The latest-health slice used by the wellness computation
(src/unnamed/part_000 line 501). -/
structure Health where
  heart_rate : ℚ
  stress_level : ℚ
  fatigue_level : ℚ
deriving DecidableEq, Repr

/-- `CommandCenter`'s wellness index (src/unnamed/part_000 line 501):
`health ? Math.round(100 - (stress*0.4 + fatigue*0.3 + |hr-70|*0.3))
: 85`. `Math.round x` is `⌊x + 1/2⌋`, Mathlib's `round`. -/
def wellnessScore (health : Option Health) : ℤ :=
  match health with
  | some h =>
      round (100 - (h.stress_level * (4/10) + h.fatigue_level * (3/10)
        + |h.heart_rate - 70| * (3/10)))
  | none => 85

end CommandCenter

namespace DashboardRisk

/-- The `validation` sub-object of the latest-health payload. -/
structure Validation where
  adjusted_confidence : Option ℚ
deriving DecidableEq, Repr

/-- The latest-health slice used by the App.js `Dashboard` risk
computation (src/frontend/src/App.js lines 320-322). -/
structure HealthData where
  stress_level : ℚ
  fatigue_level : ℚ
  validation : Option Validation
deriving DecidableEq, Repr

/-- JS truthiness of `healthData?.validation?.adjusted_confidence`:
false when the health slice, the validation object or the confidence
is absent, or the confidence is zero. -/
def adjustedConfidenceTruthy (hd : Option HealthData) : Bool :=
  match hd with
  | none => false
  | some h =>
    match h.validation with
    | none => false
    | some v =>
      match v.adjusted_confidence with
      | none => false
      | some c => decide (c ≠ 0)

/-- `Dashboard`'s risk level (src/frontend/src/App.js lines 320-322):
0 (Optimal) unless an adjusted confidence is present, in which case 2
when stress or fatigue exceed 70, 1 when stress exceeds 50, else 0. -/
def riskLevel (hd : Option HealthData) : Nat :=
  match hd with
  | none => 0
  | some h =>
    if adjustedConfidenceTruthy (some h) then
      if h.stress_level > 70 ∨ h.fatigue_level > 70 then 2
      else if h.stress_level > 50 then 1
      else 0
    else 0

/-- `riskLabels` (src/frontend/src/App.js line 325). -/
def riskLabels : List String := ["Optimal", "Elevated", "High"]

end DashboardRisk

/-- C9: when the latest-health slice is absent, the wellness index
evaluates to the neutral default 85 and the risk assessment to level
0, labelled "Optimal"; both computations are total, so nothing
fails. -/
theorem wellness_defaults_without_vitals :
    CommandCenter.wellnessScore none = 85 ∧
    DashboardRisk.riskLevel none = 0 ∧
    DashboardRisk.riskLabels.getD (DashboardRisk.riskLevel none) "" =
      "Optimal" :=
  ⟨rfl, rfl, rfl⟩

namespace Polling

/-- Body of `GET /api/health/timeline/...`; `daily_averages` may be
missing (`Option`), guarded by `|| []` at the call site. The catch
default is `{ records: [], daily_averages: [] }`. -/
structure TimelineResp (T : Type) where
  daily_averages : Option (List T)
deriving DecidableEq, Repr

/-- Body of `GET /api/alerts/...`; catch default `{ alerts: [] }`. -/
structure AlertsResp (A : Type) where
  alerts : Option (List A)
deriving DecidableEq, Repr

/-- Body of `GET /api/chat/history/...`; catch default
`{ history: [] }`. -/
structure ChatResp (M : Type) where
  history : Option (List M)
deriving DecidableEq, Repr

/-- The six per-slice fetch outcomes of one polling cycle of the
App.js variant (src/frontend/src/App.js lines 90-97): `none` models a
rejected fetch, caught by the per-fetch `.catch`. Payload types are
abstract — the synchronizer never inspects them. -/
structure FetchOutcomes (H B C T A M : Type) where
  latestHealth : Option H
  timeline : Option (TimelineResp T)
  baseline : Option B
  alerts : Option (AlertsResp A)
  context : Option C
  chat : Option (ChatResp M)

/-- The six data slices of the App.js variant's top-level state
(src/frontend/src/App.js lines 58-63). -/
structure DataState (H B C T A M : Type) where
  healthData : Option H
  timeline : List T
  baseline : Option B
  alerts : List A
  context : Option C
  chatHistory : List M
deriving DecidableEq

/-- `loadAstronautData` (src/frontend/src/App.js lines 88-108): each
fetch is individually caught — a failed latest-health, baseline or
context fetch substitutes `null`, a failed timeline fetch substitutes
`{ records: [], daily_averages: [] }`, a failed alerts fetch
`{ alerts: [] }`, a failed chat fetch `{ history: [] }` — and all six
setters then run unconditionally on the substituted values. The prior
state is not consulted. -/
def loadAstronautData {H B C T A M : Type} (_st : DataState H B C T A M)
    (r : FetchOutcomes H B C T A M) : DataState H B C T A M :=
  { healthData := r.latestHealth
  , timeline :=
      (match r.timeline with
       | some resp => resp
       | none => ⟨some []⟩).daily_averages.getD []
  , baseline := r.baseline
  , alerts :=
      (match r.alerts with
       | some resp => resp
       | none => ⟨some []⟩).alerts.getD []
  , context := r.context
  , chatHistory :=
      (match r.chat with
       | some resp => resp
       | none => ⟨some []⟩).history.getD [] }

/-- Body of `GET /api/dashboard/summary/...` of the unnamed variant:
an abstract payload plus the optional `facial_analysis` field read by
`loadDashboardData`. -/
structure SummaryResp (S F : Type) where
  payload : S
  facial_analysis : Option F
deriving DecidableEq, Repr

/-- `Dashboard`'s state slices touched by `loadDashboardData`
(src/unnamed/part_000 lines 313-315). -/
structure DashState (S F : Type) where
  dashboardData : Option (SummaryResp S F)
  facialData : Option F
  loading : Bool
deriving DecidableEq, Repr

/-- `loadDashboardData` of the unnamed variant (src/unnamed/part_000
lines 319-330), with `r = none` modelling a rejected summary fetch:
on success stores the summary (and its facial slice when present); on
failure only `console.error` runs, leaving the data unchanged. The
second component records whether any error was surfaced to the user:
it never is. -/
def loadDashboardData {S F : Type} (st : DashState S F)
    (r : Option (SummaryResp S F)) : DashState S F × Bool :=
  match r with
  | some data =>
      ({ dashboardData := some data
       , facialData :=
           match data.facial_analysis with
           | some fa => some fa
           | none => st.facialData
       , loading := false }, false)
  | none => ({ st with loading := false }, false)

end Polling

/-- C5: in every polling cycle of the App.js batch, each of the six
fetches is independently fault-tolerant — a failure substitutes that
slice's default (null for latest health, baseline and context, the
empty sequence for the timeline, the empty set for alerts, the empty
history for chat) and the final value of each slice depends only on
that slice's own fetch outcome, so one failure never aborts the rest
of the batch; in the unnamed variant a failed summary fetch leaves
the data unchanged, and neither variant surfaces an error to the
user. -/
theorem polling_batch_fault_tolerant {H B C T A M S F : Type}
    (st : Polling.DataState H B C T A M)
    (r : Polling.FetchOutcomes H B C T A M)
    (dst : Polling.DashState S F) :
    (r.latestHealth = none →
      (Polling.loadAstronautData st r).healthData = none) ∧
    (r.timeline = none → (Polling.loadAstronautData st r).timeline = []) ∧
    (r.baseline = none →
      (Polling.loadAstronautData st r).baseline = none) ∧
    (r.alerts = none → (Polling.loadAstronautData st r).alerts = []) ∧
    (r.context = none → (Polling.loadAstronautData st r).context = none) ∧
    (r.chat = none → (Polling.loadAstronautData st r).chatHistory = []) ∧
    (∀ r' : Polling.FetchOutcomes H B C T A M,
      r'.latestHealth = r.latestHealth →
        (Polling.loadAstronautData st r').healthData =
          (Polling.loadAstronautData st r).healthData) ∧
    (∀ r' : Polling.FetchOutcomes H B C T A M,
      r'.timeline = r.timeline →
        (Polling.loadAstronautData st r').timeline =
          (Polling.loadAstronautData st r).timeline) ∧
    (∀ r' : Polling.FetchOutcomes H B C T A M,
      r'.baseline = r.baseline →
        (Polling.loadAstronautData st r').baseline =
          (Polling.loadAstronautData st r).baseline) ∧
    (∀ r' : Polling.FetchOutcomes H B C T A M,
      r'.alerts = r.alerts →
        (Polling.loadAstronautData st r').alerts =
          (Polling.loadAstronautData st r).alerts) ∧
    (∀ r' : Polling.FetchOutcomes H B C T A M,
      r'.context = r.context →
        (Polling.loadAstronautData st r').context =
          (Polling.loadAstronautData st r).context) ∧
    (∀ r' : Polling.FetchOutcomes H B C T A M,
      r'.chat = r.chat →
        (Polling.loadAstronautData st r').chatHistory =
          (Polling.loadAstronautData st r).chatHistory) ∧
    ((Polling.loadDashboardData dst none).1.dashboardData =
      dst.dashboardData) ∧
    ((Polling.loadDashboardData dst none).1.facialData =
      dst.facialData) ∧
    (∀ dr : Option (Polling.SummaryResp S F),
      (Polling.loadDashboardData dst dr).2 = false) := by
  refine ⟨?_, ?_, ?_, ?_, ?_, ?_, ?_, ?_, ?_, ?_, ?_, ?_, rfl, rfl, ?_⟩
  · intro h; simp [Polling.loadAstronautData, h]
  · intro h; simp [Polling.loadAstronautData, h]
  · intro h; simp [Polling.loadAstronautData, h]
  · intro h; simp [Polling.loadAstronautData, h]
  · intro h; simp [Polling.loadAstronautData, h]
  · intro h; simp [Polling.loadAstronautData, h]
  · intro r' h; simp [Polling.loadAstronautData, h]
  · intro r' h; simp [Polling.loadAstronautData, h]
  · intro r' h; simp [Polling.loadAstronautData, h]
  · intro r' h; simp [Polling.loadAstronautData, h]
  · intro r' h; simp [Polling.loadAstronautData, h]
  · intro r' h; simp [Polling.loadAstronautData, h]
  · intro dr; cases dr <;> rfl

/-- Witness for C5: a cycle where only the timeline fetch fails keeps
the other slices and defaults the timeline to the empty sequence. -/
theorem polling_batch_fault_tolerant_witness :
    (Polling.loadAstronautData
      (⟨none, [], none, [], none, []⟩ :
        Polling.DataState Nat Nat Nat Nat Nat Nat)
      ⟨some 7, none, some 1, some ⟨some [2]⟩, some 3,
        some ⟨some [4]⟩⟩).timeline = [] ∧
    (Polling.loadDashboardData
      (⟨some ⟨0, none⟩, none, false⟩ : Polling.DashState Nat Nat)
      none).1.dashboardData = some ⟨0, none⟩ := by
  have h := polling_batch_fault_tolerant
    (⟨none, [], none, [], none, []⟩ :
      Polling.DataState Nat Nat Nat Nat Nat Nat)
    ⟨some 7, none, some 1, some ⟨some [2]⟩, some 3, some ⟨some [4]⟩⟩
    (⟨some ⟨0, none⟩, none, false⟩ : Polling.DashState Nat Nat)
  exact ⟨h.2.1 rfl, h.2.2.2.2.2.2.2.2.2.2.2.2.1⟩

namespace ViewRouter

/-- The closed view enum of both variants (ids `dashboard`, `health`,
`facial`, `timeline`, `chat`, `alerts`, `context`, `crew`). -/
inductive View where
  | dashboard
  | health
  | facial
  | timeline
  | chat
  | alerts
  | context
  | crew
deriving DecidableEq, Repr

/-- The API calls issued unconditionally by mount effects of view
components. -/
inductive ApiCall where
  | getTimeline
  | getChatHistory
  | getAstronauts
  | getLatestHealth
  | getAlerts
deriving DecidableEq, Repr

/-- The router-relevant top-level state. -/
structure RouterState where
  currentView : View
  sidebarOpen : Bool
deriving DecidableEq, Repr

/-- A nav button click handler (src/unnamed/part_000 line 383,
src/frontend/src/App.js line 157): `setCurrentView(item.id)` — a pure
local state update. -/
def setCurrentView (st : RouterState) (v : View) : RouterState :=
  { st with currentView := v }

/-- Fetches issued by the mount effect of the component rendered for
view `v` in the unnamed variant: `HealthTimeline` fetches the timeline
(src/unnamed/part_000 lines 1085-1095), `AstraSupport` fetches the
chat history (lines 1147-1157), `CrewOverview` fetches the roster
(lines 1441-1460; its per-astronaut summary fetches depend on the
response and are not listed). All other views receive their data via
props from the already-loaded dashboard state. -/
def mountFetches : View → List ApiCall
  | View.timeline => [ApiCall.getTimeline]
  | View.chat => [ApiCall.getChatHistory]
  | View.crew => [ApiCall.getAstronauts]
  | _ => []

/-- Fetches issued by mount effects in the App.js variant:
`HealthTimeline` fetches the timeline (src/frontend/src/App.js lines
1048-1058); `SupportChat` receives history via props and fetches
nothing; `CrewOverview` fetches latest health and alerts for each
astronaut of the roster (lines 1699-1716). -/
def mountFetchesApp (roster : List String) : View → List ApiCall
  | View.timeline => [ApiCall.getTimeline]
  | View.crew =>
      roster.flatMap fun _ => [ApiCall.getLatestHealth, ApiCall.getAlerts]
  | _ => []

/-- A full view switch in the unnamed variant: the handler's state
update, paired with the API calls issued because the newly selected
view's component mounts (clicking the already-active view does not
remount it). -/
def switchView (st : RouterState) (v : View) :
    RouterState × List ApiCall :=
  (setCurrentView st v,
    if v = st.currentView then [] else mountFetches v)

end ViewRouter

/-- C6 counterexample: switching from the dashboard view to the
timeline view issues a network request — the mounted `HealthTimeline`
component's effect fetches the timeline — so the claim that a view
switch never itself issues a fetch is false on the code. -/
theorem view_switch_fetches_counterexample :
    (ViewRouter.switchView ⟨ViewRouter.View.dashboard, true⟩
        ViewRouter.View.timeline).2 = [ViewRouter.ApiCall.getTimeline] ∧
    (ViewRouter.switchView ⟨ViewRouter.View.dashboard, true⟩
        ViewRouter.View.timeline).2 ≠ [] := by
  refine ⟨rfl, ?_⟩
  intro h
  simp [ViewRouter.switchView, ViewRouter.mountFetches,
    ViewRouter.setCurrentView] at h

/-- C6 (amended): the nav click handler itself performs only the pure
local update of the current-view selector; switching to the
dashboard, vitals, biometric-scan, alerts or mission-context views
issues no network request, but switching to the timeline view (both
variants), the chat view (unnamed variant) or the crew-overview view
mounts a component whose mount effect issues fetches. -/
theorem view_switch_amended (st : ViewRouter.RouterState)
    (v : ViewRouter.View) (roster : List String) :
    (ViewRouter.switchView st v).1 = { st with currentView := v } ∧
    ((v = ViewRouter.View.dashboard ∨ v = ViewRouter.View.health ∨
        v = ViewRouter.View.facial ∨ v = ViewRouter.View.alerts ∨
        v = ViewRouter.View.context) →
      (ViewRouter.switchView st v).2 = []) ∧
    (st.currentView ≠ ViewRouter.View.timeline →
      (ViewRouter.switchView st ViewRouter.View.timeline).2 =
        [ViewRouter.ApiCall.getTimeline]) ∧
    (st.currentView ≠ ViewRouter.View.chat →
      (ViewRouter.switchView st ViewRouter.View.chat).2 =
        [ViewRouter.ApiCall.getChatHistory]) ∧
    (st.currentView ≠ ViewRouter.View.crew →
      (ViewRouter.switchView st ViewRouter.View.crew).2 =
        [ViewRouter.ApiCall.getAstronauts]) ∧
    ViewRouter.mountFetchesApp roster ViewRouter.View.timeline =
      [ViewRouter.ApiCall.getTimeline] ∧
    ViewRouter.mountFetchesApp roster ViewRouter.View.dashboard = [] := by
  refine ⟨rfl, ?_, ?_, ?_, ?_, rfl, rfl⟩
  · intro hv
    rcases hv with h | h | h | h | h <;>
      simp [ViewRouter.switchView, ViewRouter.mountFetches, h]
  · intro h
    have h2 := h.symm
    simp [ViewRouter.switchView, ViewRouter.mountFetches, h2]
  · intro h
    have h2 := h.symm
    simp [ViewRouter.switchView, ViewRouter.mountFetches, h2]
  · intro h
    have h2 := h.symm
    simp [ViewRouter.switchView, ViewRouter.mountFetches, h2]

/-- Witness for the amended C6: from the dashboard, switching to the
alerts view issues nothing while switching to the timeline view
issues the timeline fetch. -/
theorem view_switch_amended_witness :
    (ViewRouter.switchView ⟨ViewRouter.View.dashboard, true⟩
        ViewRouter.View.alerts).2 = [] ∧
    (ViewRouter.switchView ⟨ViewRouter.View.dashboard, true⟩
        ViewRouter.View.timeline).2 = [ViewRouter.ApiCall.getTimeline] := by
  have h := view_switch_amended ⟨ViewRouter.View.dashboard, true⟩
    ViewRouter.View.alerts []
  have h2 := view_switch_amended ⟨ViewRouter.View.dashboard, true⟩
    ViewRouter.View.timeline []
  exact ⟨h.2.1 (Or.inr (Or.inr (Or.inr (Or.inl rfl)))),
    h2.2.2.1 (by simp)⟩
